import Mathlib

/-!
# Verification of the `smooth_axis` adaptive analog filter

Shallow embedding of `src/smooth_axis.c` (the current revision of the file:
the one whose constants are `STICKY_U = 3`, `K = 3.5` and whose output helper
is `apply_sticky_margins`).  C `float` arithmetic is modelled over `ℝ`;
`uint16_t` raw samples and `uint32_t` millisecond clocks are modelled as `ℕ`
(with explicit `% 2 ^ 32` where C unsigned wraparound matters).  The
`now_ms` function pointer of the configuration is modelled by a flag telling
whether it is non-null, and the millisecond values it would return are
supplied as an explicit argument to each AUTO-mode update call.  A possibly
NULL `smooth_axis_t *` argument of a public query is modelled as
`Option smooth_axis`.  Functions that mutate the axis through the pointer
return the new state.
-/

noncomputable section

/-! ## Compile-time constants (from the source) -/

/-- `#define SMOOTH_AXIS_INIT_CALIBRATION_CYCLES 4096` (the `#ifndef` default). -/
def SMOOTH_AXIS_INIT_CALIBRATION_CYCLES : ℕ := 4096

/-- `static const float SMOOTH_AXIS_AUTO_DT_MIN_MS = 0.1f`. -/
def SMOOTH_AXIS_AUTO_DT_MIN_MS : ℝ := 0.1

/-- `static const float SMOOTH_AXIS_AUTO_DT_MAX_MS = 50.0f`. -/
def SMOOTH_AXIS_AUTO_DT_MAX_MS : ℝ := 50

/-- `static const float FALLBACK_DELTA_TIME = 0.016f` (16 ms). -/
def FALLBACK_DELTA_TIME : ℝ := 0.016

/-- `static const float CANONICAL_MAX = 1023.0f`. -/
def CANONICAL_MAX : ℝ := 1023

/-- `static const float FULL_OFF_U = 0.0f`. -/
def FULL_OFF_U : ℝ := 0

/-- `static const float FULL_ON_U = 1023.0f`. -/
def FULL_ON_U : ℝ := 1023

/-- `static const float STICKY_U = 3.0f`. -/
def STICKY_U : ℝ := 3

/-- `static const float MOVE_THRESH_U = 3.0f`. -/
def MOVE_THRESH_U : ℝ := 3

/-- `static const float SMOOTH_AXIS_RESIDUAL = 0.05f`. -/
def SMOOTH_AXIS_RESIDUAL : ℝ := 0.05

/-- `static const float BETA = 0.005f` (noise-estimate smoothing rate). -/
def BETA : ℝ := 0.005

/-- `static const float K = 3.5f` (threshold headroom coefficient). -/
def K : ℝ := 3.5

/-! ## Tiny helpers (`static inline` functions of the source) -/

/-- `clamp_f(x, lo, hi)`. -/
def clamp_f (x lo hi : ℝ) : ℝ :=
  if x < lo then lo else if x > hi then hi else x

/-- `clamp_f_0_1(x)`. -/
def clamp_f_0_1 (x : ℝ) : ℝ := clamp_f x 0 1

/-- `abs_f(x)`. -/
def abs_f (x : ℝ) : ℝ := if x < 0 then -x else x

/-- `ema(old, new, alpha)`. -/
def ema (old new alpha : ℝ) : ℝ := (1 - alpha) * old + alpha * new

/-- `map_f(x, in_min, in_max, out_min, out_max)`. -/
def map_f (x in_min in_max out_min out_max : ℝ) : ℝ :=
  if in_max = in_min then out_min
  else out_min + (x - in_min) / (in_max - in_min) * (out_max - out_min)

/-- `compute_dyn_scale(settle_time_sec)`: the settle-time attenuation scalar
for the dynamic threshold (`t_ref = 0.1`, i.e. a 100 ms reference). -/
def compute_dyn_scale (settle_time_sec : ℝ) : ℝ :=
  let t_ref : ℝ := 0.1
  let r := settle_time_sec / t_ref
  let r := if r < 1 then 1 else r
  1 / r

/-- `sign_of(residual)`. -/
def sign_of (residual : ℝ) : ℝ :=
  if residual > 0 then 1 else if residual < 0 then -1 else 0

/-- `sign_has_flipped(current, previous)`: the sign flipped, or both residuals
are exactly zero. -/
def sign_has_flipped (current previous : ℝ) : Prop :=
  sign_of current ≠ sign_of previous ∨
    (sign_of current = 0 ∧ sign_of previous = 0)

instance (current previous : ℝ) : Decidable (sign_has_flipped current previous) := by
  unfold sign_has_flipped; infer_instance

/-! ## Data model -/

/-- `smooth_axis_mode_t`. -/
inductive smooth_axis_mode_t
  | SMOOTH_AXIS_MODE_AUTO_DT
  | SMOOTH_AXIS_MODE_LIVE_DT
deriving DecidableEq

export smooth_axis_mode_t (SMOOTH_AXIS_MODE_AUTO_DT SMOOTH_AXIS_MODE_LIVE_DT)

/-- `smooth_axis_config_t`.  `now_ms : Bool` models whether the millisecond
clock function pointer is non-null (its readings are passed to the update
calls explicitly). -/
structure smooth_axis_config_t where
  max_raw : ℕ
  full_off_norm : ℝ
  full_on_norm : ℝ
  sticky_zone_norm : ℝ
  movement_thresh_norm : ℝ
  mode : smooth_axis_mode_t
  settle_time_sec : ℝ
  now_ms : Bool
  _ema_rate : ℝ
  _dyn_scale : ℝ

/-- `smooth_axis_t`. -/
structure smooth_axis where
  cfg : smooth_axis_config_t
  _smoothed_norm : ℝ
  _dev_norm : ℝ
  _last_reported_norm : ℝ
  _has_first_sample : Bool
  _last_residual : ℝ
  _dt_accum_sec : ℝ
  _warmup_cycles_done : ℕ
  _last_time_ms : ℕ
  _auto_alpha : ℝ

/-! ## Config-level helpers -/

/-- `set_default_config(cfg, max_raw)` (mutates the given config in place). -/
def set_default_config (cfg : smooth_axis_config_t) (max_raw : ℕ) :
    smooth_axis_config_t :=
  { cfg with
    max_raw := if max_raw = 0 then 1 else max_raw
    full_off_norm := clamp_f_0_1 (FULL_OFF_U / CANONICAL_MAX)
    full_on_norm := clamp_f_0_1 (FULL_ON_U / CANONICAL_MAX)
    sticky_zone_norm := clamp_f (STICKY_U / CANONICAL_MAX) 0 0.49
    movement_thresh_norm := clamp_f_0_1 (MOVE_THRESH_U / CANONICAL_MAX) }

/-- `input_norm(axis, raw_value)`: normalize the raw sample, apply the
`full_off`/`full_on` dead zones, and re-lerp the usable band to `[0,1]`. -/
def input_norm (axis : smooth_axis) (raw_value : ℕ) : ℝ :=
  let max_raw := if axis.cfg.max_raw = 0 then 1 else axis.cfg.max_raw
  let norm := (raw_value : ℝ) / (max_raw : ℝ)
  let norm := clamp_f_0_1 norm
  let off := axis.cfg.full_off_norm
  let on_ := axis.cfg.full_on_norm
  let off' := if on_ ≤ off then 0 else off
  let on' := if on_ ≤ off then 1 else on_
  let norm := clamp_f norm off' on'
  map_f norm off' on' 0 1

/-! ## Output pipeline helpers -/

/-- `get_dynamic_thresh(axis)`: noise-scaled movement threshold. -/
def get_dynamic_thresh (axis : smooth_axis) : ℝ :=
  let base_thresh := axis.cfg.movement_thresh_norm
  let dyn_thresh := K * axis._dev_norm
  let scaled := dyn_thresh * axis.cfg._dyn_scale
  clamp_f scaled 0 (10 * base_thresh)

/-- `apply_sticky_margins(axis_position, sticky_margin_size)`: snap to the
endpoints inside the sticky margins, remap in between. -/
def apply_sticky_margins (axis_position sticky_margin_size : ℝ) : ℝ :=
  let z := clamp_f sticky_margin_size 0 0.49
  let sticky_ceiling := 1 - z
  let sticky_floor := z
  if axis_position ≥ sticky_ceiling then 1
  else if axis_position ≤ sticky_floor then 0
  else clamp_f_0_1 (map_f axis_position 0 1 (-z) (1 + z))

/-- `get_normalized(axis)` (NULL pointer modelled as `none`). -/
def get_normalized (axis : Option smooth_axis) : ℝ :=
  match axis with
  | none => 0
  | some axis =>
    if axis._has_first_sample = false then 0
    else apply_sticky_margins axis._smoothed_norm axis.cfg.sticky_zone_norm

/-! ## EMA math -/

/-- `compute_ema_rate(settle_time_sec)`: the decay-rate constant
`ln(residual) / settle_time_sec`, zero for non-positive settle times. -/
def compute_ema_rate (settle_time_sec : ℝ) : ℝ :=
  if settle_time_sec ≤ 0 then 0
  else
    let residual := clamp_f SMOOTH_AXIS_RESIDUAL 0.0001 0.9999
    Real.log residual / settle_time_sec

/-- `ema_alpha_from_dt(k, dt_sec)`: the per-sample smoothing coefficient. -/
def ema_alpha_from_dt (k dt_sec : ℝ) : ℝ :=
  if dt_sec > 0 ∧ k ≠ 0 then
    1 - Real.exp (clamp_f (k * dt_sec) (-20) 0)
  else 1

/-! ## Warm-up (AUTO) and first sample -/

/-- `auto_warmup_has_finished(axis)`. -/
def auto_warmup_has_finished (axis : smooth_axis) : Prop :=
  axis._warmup_cycles_done ≥ SMOOTH_AXIS_INIT_CALIBRATION_CYCLES

instance (axis : smooth_axis) : Decidable (auto_warmup_has_finished axis) := by
  unfold auto_warmup_has_finished; infer_instance

/-- `auto_run_warmup_cycle_if_needed(axis)`.  `now_ms_value` is the reading
the configured clock function returns on this call; the `uint32_t`
subtraction `now_ms - axis->_last_time_ms` wraps modulo `2 ^ 32`. -/
def auto_run_warmup_cycle_if_needed (axis : smooth_axis) (now_ms_value : ℕ) :
    smooth_axis :=
  if auto_warmup_has_finished axis then axis
  else if axis.cfg.now_ms = false then axis
  else if axis._last_time_ms = 0 then { axis with _last_time_ms := now_ms_value }
  else
    let dt_ms : ℝ := (((now_ms_value + 2 ^ 32 - axis._last_time_ms % 2 ^ 32) % 2 ^ 32 : ℕ) : ℝ)
    let axis := { axis with _last_time_ms := now_ms_value }
    let dt_ms := clamp_f dt_ms SMOOTH_AXIS_AUTO_DT_MIN_MS SMOOTH_AXIS_AUTO_DT_MAX_MS
    let dt_sec := dt_ms / 1000
    let axis := { axis with
      _dt_accum_sec := axis._dt_accum_sec + dt_sec
      _warmup_cycles_done := axis._warmup_cycles_done + 1 }
    if auto_warmup_has_finished axis then
      let dt_avg := axis._dt_accum_sec / (axis._warmup_cycles_done : ℝ)
      { axis with _auto_alpha := ema_alpha_from_dt axis.cfg._ema_rate dt_avg }
    else axis

/-- `register_first_sample(axis, norm)`: `true` and the teleported state when
this is the very first sample, `false` and the unchanged state otherwise. -/
def register_first_sample (axis : smooth_axis) (norm : ℝ) :
    Bool × smooth_axis :=
  if axis._has_first_sample = false then
    (true, { axis with _smoothed_norm := norm, _has_first_sample := true })
  else (false, axis)

/-! ## Update helpers -/

/-- `update_deviation(axis, current_residual)`: sign-flip gated noise
estimator. -/
def update_deviation (axis : smooth_axis) (current_residual : ℝ) :
    smooth_axis :=
  let zero_crossed := sign_has_flipped current_residual axis._last_residual
  let axis := { axis with _last_residual := current_residual }
  let new_sample := if zero_crossed then abs_f current_residual else 0
  let dev := ema axis._dev_norm new_sample BETA
  { axis with _dev_norm := clamp_f_0_1 dev }

/-- `update_core(axis, raw_value, alpha)`. -/
def update_core (axis : smooth_axis) (raw_value : ℕ) (alpha : ℝ) :
    smooth_axis :=
  let norm := input_norm axis raw_value
  match register_first_sample axis norm with
  | (true, axis) => axis
  | (false, axis) =>
    let diff := norm - axis._smoothed_norm
    let axis := { axis with _smoothed_norm := axis._smoothed_norm + alpha * diff }
    update_deviation axis diff

/-! ## Public API -/

/-- `smooth_axis_default_config_auto(cfg, max_raw, settle_time_sec, now_ms)`.
`now_ms` is the non-nullness of the supplied clock function pointer. -/
def smooth_axis_default_config_auto (cfg : smooth_axis_config_t)
    (max_raw : ℕ) (settle_time_sec : ℝ) (now_ms : Bool) :
    smooth_axis_config_t :=
  let cfg := set_default_config cfg max_raw
  { cfg with
    mode := SMOOTH_AXIS_MODE_AUTO_DT
    settle_time_sec := settle_time_sec
    now_ms := now_ms
    _ema_rate := compute_ema_rate settle_time_sec
    _dyn_scale := compute_dyn_scale settle_time_sec }

/-- `smooth_axis_default_config_live_deltatime(cfg, max_raw, settle_time_sec)`. -/
def smooth_axis_default_config_live_deltatime (cfg : smooth_axis_config_t)
    (max_raw : ℕ) (settle_time_sec : ℝ) : smooth_axis_config_t :=
  let cfg := set_default_config cfg max_raw
  { cfg with
    mode := SMOOTH_AXIS_MODE_LIVE_DT
    settle_time_sec := settle_time_sec
    _ema_rate := compute_ema_rate settle_time_sec
    _dyn_scale := compute_dyn_scale settle_time_sec }

/-- `smooth_axis_init(axis, cfg)`: the freshly initialized axis state. -/
def smooth_axis_init (cfg : smooth_axis_config_t) : smooth_axis :=
  { cfg := cfg
    _smoothed_norm := 0
    _dev_norm := 0.01
    _last_reported_norm := 0
    _auto_alpha := ema_alpha_from_dt cfg._ema_rate FALLBACK_DELTA_TIME
    _dt_accum_sec := 0
    _warmup_cycles_done := 0
    _last_time_ms := 0
    _last_residual := 0
    _has_first_sample := false }

/-- `smooth_axis_update_auto(axis, raw_value)`; `now_ms_value` is what the
configured clock returns if the warm-up step reads it on this call. -/
def smooth_axis_update_auto (axis : smooth_axis) (raw_value : ℕ)
    (now_ms_value : ℕ) : smooth_axis :=
  if axis.cfg.mode ≠ SMOOTH_AXIS_MODE_AUTO_DT then axis
  else
    let axis := auto_run_warmup_cycle_if_needed axis now_ms_value
    update_core axis raw_value axis._auto_alpha

/-- `smooth_axis_update_live_deltatime(axis, raw_value, dt_sec)`. -/
def smooth_axis_update_live_deltatime (axis : smooth_axis) (raw_value : ℕ)
    (dt_sec : ℝ) : smooth_axis :=
  if axis.cfg.mode ≠ SMOOTH_AXIS_MODE_LIVE_DT then axis
  else
    let live_alpha := ema_alpha_from_dt axis.cfg._ema_rate dt_sec
    update_core axis raw_value live_alpha

/-- `smooth_axis_get_norm(axis)`. -/
def smooth_axis_get_norm (axis : Option smooth_axis) : ℝ :=
  get_normalized axis

/-- `lroundf(x)`: round to nearest, halves away from zero. -/
def lroundf (x : ℝ) : ℤ :=
  if x < 0 then -⌊-x + 1 / 2⌋ else ⌊x + 1 / 2⌋

/-- `smooth_axis_get_u16(axis)`. -/
def smooth_axis_get_u16 (axis : Option smooth_axis) : ℕ :=
  match axis with
  | none => 0
  | some axis =>
    let max_out : ℝ := (axis.cfg.max_raw : ℝ)
    let n := get_normalized (some axis)
    if n ≤ 1 / max_out then 0
    else if n ≥ (max_out - 1) / max_out then axis.cfg.max_raw
    else (lroundf (n * max_out)).toNat

/-- `smooth_axis_has_new_value(axis)`: the returned flag together with the
state the call leaves behind (it mutates `_last_reported_norm` on a `true`
return). -/
def smooth_axis_has_new_value (axis : Option smooth_axis) :
    Bool × Option smooth_axis :=
  match axis with
  | none => (false, none)
  | some axis =>
    if axis._has_first_sample = false then (false, some axis)
    else
      let current := get_normalized (some axis)
      let last := axis._last_reported_norm
      let diff := abs_f (current - last)
      let max_raw := if axis.cfg.max_raw = 0 then 1 else axis.cfg.max_raw
      let epsilon := 1 / (max_raw : ℝ)
      if diff ≤ epsilon then (false, some axis)
      else
        let sticky_ceil := 1 - axis.cfg.sticky_zone_norm
        let sticky_floor := axis.cfg.sticky_zone_norm
        let inside_the_sticky_edges :=
          current < sticky_floor ∨ current > sticky_ceil
        let dyn_thresh := get_dynamic_thresh axis
        if inside_the_sticky_edges ∨ diff > dyn_thresh then
          (true, some { axis with _last_reported_norm := current })
        else (false, some axis)

/-- `smooth_axis_get_noise_norm(axis)`. -/
def smooth_axis_get_noise_norm (axis : Option smooth_axis) : ℝ :=
  match axis with
  | none => 0
  | some axis => axis._dev_norm

/-- `smooth_axis_get_effective_thresh_norm(axis)`. -/
def smooth_axis_get_effective_thresh_norm (axis : Option smooth_axis) : ℝ :=
  match axis with
  | none => 0
  | some axis => get_dynamic_thresh axis

/-- Modelled from the spec: `smooth_axis_reset` is declared in the public
header (`smooth_axis.h`) and exercised by the test suite, but its definition
is not among the repository's source files.  Following the spec's words
("reseed smoothing/noise/reported state to a given raw value or to zero,
without restarting AutoInterval calibration"), it reseeds the smoothing and
last-reported state to the position named by `raw_value`, reinitializes the
noise estimate and residual history to their `smooth_axis_init` values, and
leaves the warm-up calibration bookkeeping (`_auto_alpha`, `_dt_accum_sec`,
`_warmup_cycles_done`, `_last_time_ms`) untouched. -/
def smooth_axis_reset (axis : smooth_axis) (raw_value : ℕ) : smooth_axis :=
  let norm := input_norm axis raw_value
  { axis with
    _smoothed_norm := norm
    _dev_norm := 0.01
    _last_reported_norm := norm
    _last_residual := 0
    _has_first_sample := true }

/-- The axis states reachable through the public API: initialization from an
arbitrary configuration followed by any sequence of update calls (arbitrary
raw samples, clock readings and elapsed times) and `has_new_value` queries
(the only query that mutates the state). -/
inductive Reaches : smooth_axis → Prop
  | init (cfg : smooth_axis_config_t) : Reaches (smooth_axis_init cfg)
  | update_auto (s : smooth_axis) (raw_value now_ms_value : ℕ) :
      Reaches s → Reaches (smooth_axis_update_auto s raw_value now_ms_value)
  | update_live (s : smooth_axis) (raw_value : ℕ) (dt_sec : ℝ) :
      Reaches s → Reaches (smooth_axis_update_live_deltatime s raw_value dt_sec)
  | query (s s' : smooth_axis) :
      Reaches s → (smooth_axis_has_new_value (some s)).2 = some s' → Reaches s'

/-! ## Concrete instances used by witnesses and counterexamples -/

/-- An arbitrary pre-initialization configuration record (the C builders
overwrite a caller-provided struct whose previous contents are irrelevant). -/
def cfg0 : smooth_axis_config_t :=
  { max_raw := 0
    full_off_norm := 0
    full_on_norm := 0
    sticky_zone_norm := 0
    movement_thresh_norm := 0
    mode := SMOOTH_AXIS_MODE_LIVE_DT
    settle_time_sec := 0
    now_ms := false
    _ema_rate := 0
    _dyn_scale := 0 }

/-- A LIVE_DT configuration with a wide (10%) sticky zone and the default
movement threshold, used for concrete evaluations. -/
def cfgA : smooth_axis_config_t :=
  { max_raw := 1023
    full_off_norm := 0
    full_on_norm := 1
    sticky_zone_norm := 0.1
    movement_thresh_norm := 3 / 1023
    mode := SMOOTH_AXIS_MODE_LIVE_DT
    settle_time_sec := 0.25
    now_ms := false
    _ema_rate := 0
    _dyn_scale := 1 }

/-- An axis resting at smoothed position 0.3, inside the usable band of
`cfgA`'s sticky mapping. -/
def C1ax : smooth_axis :=
  { cfg := cfgA
    _smoothed_norm := 0.3
    _dev_norm := 0
    _last_reported_norm := 0
    _has_first_sample := true
    _last_residual := 0
    _dt_accum_sec := 0
    _warmup_cycles_done := 0
    _last_time_ms := 0
    _auto_alpha := 1 }

/-- An axis whose unmapped smoothed value 0.15 is outside the sticky margins
of `cfgA` but whose sticky-mapped value 0.08 is below the sticky floor. -/
def C2ax : smooth_axis :=
  { cfg := cfgA
    _smoothed_norm := 0.15
    _dev_norm := 0.001
    _last_reported_norm := 0.078
    _has_first_sample := true
    _last_residual := 0
    _dt_accum_sec := 0
    _warmup_cycles_done := 0
    _last_time_ms := 0
    _auto_alpha := 1 }

/-- An axis at mid-scale with a large pending movement relative to its last
reported position. -/
def C2wx : smooth_axis :=
  { cfg := cfgA
    _smoothed_norm := 0.5
    _dev_norm := 0.001
    _last_reported_norm := 0
    _has_first_sample := true
    _last_residual := 0
    _dt_accum_sec := 0
    _warmup_cycles_done := 0
    _last_time_ms := 0
    _auto_alpha := 1 }

/-- An initialized axis with a non-zero residual history, for exercising the
noise estimator. -/
def C4ax : smooth_axis :=
  { cfg := cfgA
    _smoothed_norm := 0.25
    _dev_norm := 0.01
    _last_reported_norm := 0.25
    _has_first_sample := true
    _last_residual := 0.003
    _dt_accum_sec := 0
    _warmup_cycles_done := 0
    _last_time_ms := 0
    _auto_alpha := 1 }

/-- An AUTO_DT configuration with a live clock source. -/
def C6cfg : smooth_axis_config_t :=
  { max_raw := 1023
    full_off_norm := 0
    full_on_norm := 1
    sticky_zone_norm := 3 / 1023
    movement_thresh_norm := 3 / 1023
    mode := SMOOTH_AXIS_MODE_AUTO_DT
    settle_time_sec := 0.25
    now_ms := true
    _ema_rate := 0
    _dyn_scale := 1 }

/-- An AUTO_DT axis that has completed 256 warm-up measurement cycles (the
count the repository's documentation says finishes calibration), last clocked
at 4112 ms. -/
def C6ax : smooth_axis :=
  { cfg := C6cfg
    _smoothed_norm := 0.5
    _dev_norm := 0.01
    _last_reported_norm := 0.5
    _has_first_sample := true
    _last_residual := 0
    _dt_accum_sec := 4.096
    _warmup_cycles_done := 256
    _last_time_ms := 4112
    _auto_alpha := 0.5 }

/-- The runtime-state bounds the invariant claim tracks, strengthened with
the `_auto_alpha` bound the induction needs. -/
def StateInv (s : smooth_axis) : Prop :=
  0 ≤ s._smoothed_norm ∧ s._smoothed_norm ≤ 1 ∧
  0 ≤ s._dev_norm ∧ s._dev_norm ≤ 1 ∧
  0 ≤ s._last_reported_norm ∧ s._last_reported_norm ≤ 1 ∧
  0 ≤ s._auto_alpha ∧ s._auto_alpha ≤ 1

/-! ## Helper lemmas -/

theorem clamp_f_mem (x : ℝ) {lo hi : ℝ} (h : lo ≤ hi) :
    lo ≤ clamp_f x lo hi ∧ clamp_f x lo hi ≤ hi := by
  unfold clamp_f
  split_ifs with h1 h2
  · exact ⟨le_refl lo, h⟩
  · exact ⟨h, le_refl hi⟩
  · exact ⟨not_lt.mp h1, not_lt.mp h2⟩

theorem clamp_f_0_1_mem (x : ℝ) : 0 ≤ clamp_f_0_1 x ∧ clamp_f_0_1 x ≤ 1 :=
  clamp_f_mem x zero_le_one

theorem clamp_f_of_mem {x lo hi : ℝ} (h1 : lo ≤ x) (h2 : x ≤ hi) :
    clamp_f x lo hi = x := by
  unfold clamp_f
  rw [if_neg (not_lt.mpr h1), if_neg (not_lt.mpr h2)]

theorem map_f_clamp_unit_mem (x lo hi : ℝ) (h : lo < hi) :
    0 ≤ map_f (clamp_f x lo hi) lo hi 0 1 ∧
      map_f (clamp_f x lo hi) lo hi 0 1 ≤ 1 := by
  obtain ⟨h1, h2⟩ := clamp_f_mem x h.le
  unfold map_f
  rw [if_neg (ne_of_gt h)]
  have e : (0 : ℝ) + (clamp_f x lo hi - lo) / (hi - lo) * (1 - 0) =
      (clamp_f x lo hi - lo) / (hi - lo) := by ring
  rw [e]
  constructor
  · exact div_nonneg (by linarith) (by linarith)
  · rw [div_le_one (by linarith)]
    linarith

theorem input_norm_mem (axis : smooth_axis) (raw_value : ℕ) :
    0 ≤ input_norm axis raw_value ∧ input_norm axis raw_value ≤ 1 := by
  unfold input_norm
  by_cases hc : axis.cfg.full_on_norm ≤ axis.cfg.full_off_norm
  · simp only [hc, if_true]
    exact map_f_clamp_unit_mem _ 0 1 one_pos
  · simp only [hc, if_false]
    exact map_f_clamp_unit_mem _ _ _ (not_le.mp hc)

theorem ema_alpha_from_dt_mem (k dt_sec : ℝ) :
    0 ≤ ema_alpha_from_dt k dt_sec ∧ ema_alpha_from_dt k dt_sec ≤ 1 := by
  unfold ema_alpha_from_dt
  split_ifs with h
  · have hc := clamp_f_mem (k * dt_sec) (show (-20 : ℝ) ≤ 0 by norm_num)
    have h1 : Real.exp (clamp_f (k * dt_sec) (-20) 0) ≤ 1 := by
      rw [show (1 : ℝ) = Real.exp 0 from Real.exp_zero.symm]
      exact Real.exp_le_exp.mpr hc.2
    have h2 : 0 < Real.exp (clamp_f (k * dt_sec) (-20) 0) := Real.exp_pos _
    constructor <;> linarith
  · norm_num

theorem apply_sticky_margins_mem (v z : ℝ) :
    0 ≤ apply_sticky_margins v z ∧ apply_sticky_margins v z ≤ 1 := by
  simp only [apply_sticky_margins]
  split_ifs
  · norm_num
  · norm_num
  · exact clamp_f_0_1_mem _

theorem get_normalized_mem (axis : smooth_axis) :
    0 ≤ get_normalized (some axis) ∧ get_normalized (some axis) ≤ 1 := by
  simp only [get_normalized]
  split_ifs
  · norm_num
  · exact apply_sticky_margins_mem _ _

theorem unit_lerp_mem (s n a : ℝ) (hs0 : 0 ≤ s) (hs1 : s ≤ 1) (hn0 : 0 ≤ n)
    (hn1 : n ≤ 1) (ha0 : 0 ≤ a) (ha1 : a ≤ 1) :
    0 ≤ s + a * (n - s) ∧ s + a * (n - s) ≤ 1 := by
  constructor
  · nlinarith [mul_nonneg ha0 hn0, mul_nonneg (sub_nonneg.mpr ha1) hs0]
  · nlinarith [mul_nonneg ha0 (sub_nonneg.mpr hn1),
      mul_nonneg (sub_nonneg.mpr ha1) (sub_nonneg.mpr hs1)]

/-- What one `smooth_axis_has_new_value` call on an initialized axis returns
and leaves behind, packaged as a single conditional. -/
theorem has_new_value_spec (axis : smooth_axis)
    (h : axis._has_first_sample = true) :
    smooth_axis_has_new_value (some axis) =
      if ¬ (abs_f (get_normalized (some axis) - axis._last_reported_norm) ≤
              1 / ((if axis.cfg.max_raw = 0 then 1 else axis.cfg.max_raw : ℕ) : ℝ)) ∧
          ((get_normalized (some axis) < axis.cfg.sticky_zone_norm ∨
              get_normalized (some axis) > 1 - axis.cfg.sticky_zone_norm) ∨
            abs_f (get_normalized (some axis) - axis._last_reported_norm) >
              get_dynamic_thresh axis)
      then (true, some { axis with _last_reported_norm := get_normalized (some axis) })
      else (false, some axis) := by
  simp only [smooth_axis_has_new_value, h]
  split_ifs with h1 h2 h3 <;> first
  | rfl
  | tauto

/-- The state a `smooth_axis_has_new_value` call leaves behind is either the
unchanged axis or the axis with only `_last_reported_norm` replaced. -/
theorem has_new_value_outcome (axis : smooth_axis) :
    (smooth_axis_has_new_value (some axis)).2 = some axis ∨
    (smooth_axis_has_new_value (some axis)).2 =
      some { axis with _last_reported_norm := get_normalized (some axis) } := by
  simp only [smooth_axis_has_new_value]
  split_ifs <;> simp

/-! ## Claims -/

/-- C1 (code_bug evidence): the spec and the code's own comment describe the
sticky middle band `[z, 1−z]` as linearly remapped onto `[0,1]`, i.e.
`(v − z) / (1 − 2z)`; the code instead maps the output range outward,
computing `v·(1+2z) − z`.  At smoothed value `v = 0.3` with margin
`z = 0.1` the reported position is 0.26 where the claimed remap gives 0.25. -/
theorem C1_sticky_remap_divergence :
    smooth_axis_get_norm (some C1ax) = 0.26 ∧
    (C1ax._smoothed_norm - C1ax.cfg.sticky_zone_norm) /
        (1 - 2 * C1ax.cfg.sticky_zone_norm) = 0.25 ∧
    (0.26 : ℝ) ≠ 0.25 := by
  refine ⟨?_, ?_, by norm_num⟩
  · unfold smooth_axis_get_norm get_normalized C1ax cfgA apply_sticky_margins
      clamp_f_0_1 clamp_f map_f
    norm_num
  · unfold C1ax cfgA
    norm_num

/-- C3: the decay-rate constant is `ln 0.05 / settle_time_sec` for positive
settle times (the residual clamp to `[1e-4, 0.9999]` leaves 0.05 unchanged)
and 0 otherwise; the per-sample coefficient is
`1 − exp (clamp (k·dt) (−20) 0)` for `dt > 0` and `k ≠ 0`, and exactly 1
when `dt ≤ 0` or `k = 0` — in particular a negative `dt` passed to the live
update path makes it run the core update with coefficient 1. -/
theorem C3_time_to_coefficient (settle_time_sec k dt_sec : ℝ) :
    (settle_time_sec ≤ 0 → compute_ema_rate settle_time_sec = 0) ∧
    (0 < settle_time_sec →
      compute_ema_rate settle_time_sec = Real.log 0.05 / settle_time_sec) ∧
    (0 < dt_sec → k ≠ 0 →
      ema_alpha_from_dt k dt_sec =
        1 - Real.exp (clamp_f (k * dt_sec) (-20) 0)) ∧
    (dt_sec ≤ 0 ∨ k = 0 → ema_alpha_from_dt k dt_sec = 1) ∧
    (∀ (axis : smooth_axis) (raw_value : ℕ),
      dt_sec < 0 → axis.cfg.mode = SMOOTH_AXIS_MODE_LIVE_DT →
      smooth_axis_update_live_deltatime axis raw_value dt_sec =
        update_core axis raw_value 1) := by
  refine ⟨?_, ?_, ?_, ?_, ?_⟩
  · intro h
    unfold compute_ema_rate
    rw [if_pos h]
  · intro h
    unfold compute_ema_rate
    rw [if_neg (not_le.mpr h)]
    have e : clamp_f SMOOTH_AXIS_RESIDUAL 0.0001 0.9999 = 0.05 := by
      unfold clamp_f SMOOTH_AXIS_RESIDUAL
      norm_num
    rw [e]
  · intro h1 h2
    unfold ema_alpha_from_dt
    rw [if_pos ⟨h1, h2⟩]
  · intro h
    unfold ema_alpha_from_dt
    rw [if_neg]
    rintro ⟨h1, h2⟩
    rcases h with h | h
    · exact absurd h1 (not_lt.mpr h)
    · exact h2 h
  · intro axis raw_value h1 h2
    unfold smooth_axis_update_live_deltatime
    rw [if_neg (by simp [h2])]
    have e : ema_alpha_from_dt axis.cfg._ema_rate dt_sec = 1 := by
      unfold ema_alpha_from_dt
      rw [if_neg]
      rintro ⟨h3, _⟩
      exact absurd h3 (not_lt.mpr h1.le)
    rw [e]

/-- C5: the effective change-detection threshold is the noise estimate times
the fixed headroom multiplier 3.5 times the configured settle-time
attenuation scalar, clamped between 0 and ten times the configured base
movement threshold; the attenuation scalar is at most 1 and strictly
decreases as the settle time grows past the 0.1 s reference; and every
configuration the builders produce carries `_dyn_scale = compute_dyn_scale`
and the default base threshold `3/1023`, making the clamp ceiling
`30/1023` (≈ 2.9% of full scale). -/
theorem C5_dynamic_threshold :
    (∀ axis : smooth_axis,
      smooth_axis_get_effective_thresh_norm (some axis) =
        clamp_f (3.5 * axis._dev_norm * axis.cfg._dyn_scale) 0
          (10 * axis.cfg.movement_thresh_norm)) ∧
    (∀ s : ℝ, compute_dyn_scale s ≤ 1) ∧
    (∀ s1 s2 : ℝ, 0.1 ≤ s1 → s1 < s2 →
      compute_dyn_scale s2 < compute_dyn_scale s1) ∧
    (∀ (cfg : smooth_axis_config_t) (max_raw : ℕ) (settle : ℝ) (b : Bool),
      ((smooth_axis_default_config_auto cfg max_raw settle b)._dyn_scale =
          compute_dyn_scale settle ∧
        10 * (smooth_axis_default_config_auto cfg max_raw settle b).movement_thresh_norm =
          30 / 1023) ∧
      ((smooth_axis_default_config_live_deltatime cfg max_raw settle)._dyn_scale =
          compute_dyn_scale settle ∧
        10 * (smooth_axis_default_config_live_deltatime cfg max_raw settle).movement_thresh_norm =
          30 / 1023)) := by
  refine ⟨?_, ?_, ?_, ?_⟩
  · intro axis
    simp only [smooth_axis_get_effective_thresh_norm, get_dynamic_thresh, K]
  · intro s
    simp only [compute_dyn_scale]
    split_ifs with h1
    · norm_num
    · have h2 : (1 : ℝ) ≤ s / 0.1 := not_lt.mp h1
      rw [div_le_one (by linarith)]
      linarith
  · intro s1 s2 hs1 hlt
    simp only [compute_dyn_scale]
    have h1 : (1 : ℝ) ≤ s1 / 0.1 := by
      rw [le_div_iff₀ (by norm_num)]
      linarith
    have h2 : s1 / 0.1 < s2 / 0.1 := by
      rw [div_lt_div_iff₀ (by norm_num) (by norm_num)]
      nlinarith
    rw [if_neg (not_lt.mpr h1), if_neg (not_lt.mpr (by linarith))]
    exact one_div_lt_one_div_of_lt (by linarith) h2
  · intro cfg max_raw settle b
    refine ⟨⟨rfl, ?_⟩, rfl, ?_⟩ <;>
      simp only [smooth_axis_default_config_auto,
        smooth_axis_default_config_live_deltatime, set_default_config,
        clamp_f_0_1, clamp_f, MOVE_THRESH_U, CANONICAL_MAX] <;>
      norm_num

/-- C6 (code_bug evidence): the repository's own documentation and tests say
warm-up calibration completes after 256 cycles, but the compiled default is
`SMOOTH_AXIS_INIT_CALIBRATION_CYCLES = 4096`: an AUTO axis that has already
accumulated 256 measured cycles is still calibrating — the next warm-up call
keeps accumulating (clamped 16 ms delta) and does not freeze the alpha. -/
theorem C6_warmup_cycle_count :
    SMOOTH_AXIS_INIT_CALIBRATION_CYCLES = 4096 ∧
    ¬ auto_warmup_has_finished C6ax ∧
    (auto_run_warmup_cycle_if_needed C6ax 4128)._warmup_cycles_done = 257 ∧
    (auto_run_warmup_cycle_if_needed C6ax 4128)._auto_alpha = C6ax._auto_alpha ∧
    (auto_run_warmup_cycle_if_needed C6ax 4128)._dt_accum_sec =
      C6ax._dt_accum_sec + 0.016 := by
  refine ⟨rfl, ?_, ?_, ?_, ?_⟩ <;>
    simp only [auto_run_warmup_cycle_if_needed, auto_warmup_has_finished,
      SMOOTH_AXIS_INIT_CALIBRATION_CYCLES, SMOOTH_AXIS_AUTO_DT_MIN_MS,
      SMOOTH_AXIS_AUTO_DT_MAX_MS, clamp_f, C6ax, C6cfg] <;>
    norm_num

/-- C10: with a NULL axis pointer, or before any sample has been processed,
every query returns its safe default — normalized position 0, integer
position 0, and `has_new_value` false — without mutating any state. -/
theorem C10_safe_defaults :
    smooth_axis_get_norm none = 0 ∧
    smooth_axis_get_u16 none = 0 ∧
    smooth_axis_has_new_value none = (false, none) ∧
    ∀ axis : smooth_axis, axis._has_first_sample = false →
      smooth_axis_get_norm (some axis) = 0 ∧
      smooth_axis_get_u16 (some axis) = 0 ∧
      smooth_axis_has_new_value (some axis) = (false, some axis) := by
  refine ⟨rfl, rfl, rfl, ?_⟩
  intro axis h
  refine ⟨?_, ?_, ?_⟩
  · simp [smooth_axis_get_norm, get_normalized, h]
  · simp only [smooth_axis_get_u16, get_normalized, h, if_true]
    rw [if_pos (one_div_nonneg.mpr (Nat.cast_nonneg _))]
  · simp [smooth_axis_has_new_value, h]

/-- C7: the very first update teleports — `update_core` on an axis that has
not yet seen a sample sets `_smoothed_norm` to the normalized input, flags
the first sample, and changes nothing else (no smoothing interpolation, no
noise-estimate update, no residual update). -/
theorem C7_first_sample_teleports (axis : smooth_axis) (raw_value : ℕ)
    (alpha : ℝ) (h : axis._has_first_sample = false) :
    update_core axis raw_value alpha =
      { axis with
        _smoothed_norm := input_norm axis raw_value
        _has_first_sample := true } := by
  simp only [update_core, register_first_sample, h, if_true]

/-- C7 witness: the first update of a freshly initialized LIVE_DT axis. -/
theorem C7_witness :
    update_core
        (smooth_axis_init (smooth_axis_default_config_live_deltatime cfg0 1023 0.25))
        512 0.5 =
      { smooth_axis_init (smooth_axis_default_config_live_deltatime cfg0 1023 0.25) with
        _smoothed_norm :=
          input_norm
            (smooth_axis_init (smooth_axis_default_config_live_deltatime cfg0 1023 0.25))
            512
        _has_first_sample := true } :=
  C7_first_sample_teleports _ 512 0.5 rfl

/-- C2 (amended): on an initialized axis, `has_new_value` returns false and
leaves all state unchanged whenever `diff ≤ 1/max_raw`; otherwise it returns
true exactly when the sticky-mapped current value lies strictly below the
configured sticky floor or strictly above the sticky ceiling (it is the
mapped value, not the unmapped smoothed value, that is compared with the
margins), or `diff` exceeds the dynamic threshold; a true return updates
`_last_reported_norm` to the current value, and a repeated call without an
intervening update returns false. -/
theorem C2_has_new_value_characterization (axis : smooth_axis)
    (h : axis._has_first_sample = true) :
    let current := get_normalized (some axis)
    let diff := abs_f (current - axis._last_reported_norm)
    let epsilon := 1 / ((if axis.cfg.max_raw = 0 then 1 else axis.cfg.max_raw : ℕ) : ℝ)
    let edge_or_move := (current < axis.cfg.sticky_zone_norm ∨
        current > 1 - axis.cfg.sticky_zone_norm) ∨ diff > get_dynamic_thresh axis
    (diff ≤ epsilon → smooth_axis_has_new_value (some axis) = (false, some axis)) ∧
    (¬ (diff ≤ epsilon) →
      ((smooth_axis_has_new_value (some axis)).1 = true ↔ edge_or_move) ∧
      (edge_or_move → smooth_axis_has_new_value (some axis) =
        (true, some { axis with _last_reported_norm := current })) ∧
      (¬ edge_or_move → smooth_axis_has_new_value (some axis) = (false, some axis))) ∧
    (∀ s' : smooth_axis, (smooth_axis_has_new_value (some axis)).2 = some s' →
      (smooth_axis_has_new_value (some s')).1 = false) := by
  intro current diff epsilon edge_or_move
  have hs := has_new_value_spec axis h
  refine ⟨?_, ?_, ?_⟩
  · intro hle
    rw [hs, if_neg]
    rintro ⟨h1, _⟩
    exact h1 hle
  · intro hgt
    refine ⟨?_, ?_, ?_⟩
    · by_cases hc : edge_or_move
      · rw [hs, if_pos ⟨hgt, hc⟩]
        simp only [true_iff]
        exact hc
      · rw [hs, if_neg (fun hfire => hc hfire.2)]
        simp only [Bool.false_eq_true, false_iff]
        exact hc
    · intro hc
      rw [hs, if_pos ⟨hgt, hc⟩]
    · intro hc
      rw [hs, if_neg (fun hfire => hc hfire.2)]
  · intro s' hs'
    rw [hs] at hs'
    by_cases hc : ¬ (diff ≤ epsilon) ∧ edge_or_move
    · rw [if_pos hc] at hs'
      obtain rfl : ({ axis with _last_reported_norm := current } : smooth_axis) = s' :=
        Option.some.inj hs'
      rw [has_new_value_spec _ (show ({ axis with _last_reported_norm := current } :
            smooth_axis)._has_first_sample = true from h), if_neg]
      rintro ⟨hd, _⟩
      apply hd
      have hdz : abs_f (get_normalized (some ({ axis with _last_reported_norm := current } :
          smooth_axis)) - ({ axis with _last_reported_norm := current } :
          smooth_axis)._last_reported_norm) = 0 := by
        have hcur : get_normalized (some ({ axis with _last_reported_norm := current } :
            smooth_axis)) = current := rfl
        rw [hcur]
        simp [abs_f]
      rw [hdz]
      exact one_div_nonneg.mpr (Nat.cast_nonneg _)
    · rw [if_neg hc] at hs'
      obtain rfl : axis = s' := Option.some.inj hs'
      rw [hs, if_neg hc]

/-- C2 counterexample: on `C2ax` (unmapped smoothed value 0.15, sticky
margin 0.1, mapped current value 0.08, last report 0.078) the call reports
true although the unmapped smoothed value lies outside the sticky margins
and the movement does not exceed the dynamic threshold — refuting the
claim's "within the sticky margins of the unmapped smoothed value". -/
theorem C2_force_edge_uses_mapped_value :
    (smooth_axis_has_new_value (some C2ax)).1 = true ∧
    ¬ (C2ax._smoothed_norm < C2ax.cfg.sticky_zone_norm ∨
       C2ax._smoothed_norm > 1 - C2ax.cfg.sticky_zone_norm) ∧
    ¬ (abs_f (get_normalized (some C2ax) - C2ax._last_reported_norm) >
       get_dynamic_thresh C2ax) := by
  have hcur : get_normalized (some C2ax) = 0.08 := by
    simp only [get_normalized, C2ax, cfgA, apply_sticky_margins, clamp_f_0_1,
      clamp_f, map_f]
    norm_num
  have hdyn : get_dynamic_thresh C2ax = 0.0035 := by
    simp only [get_dynamic_thresh, C2ax, cfgA, K, clamp_f]
    norm_num
  refine ⟨?_, ?_, ?_⟩
  · have hfire : ¬ (abs_f (get_normalized (some C2ax) - C2ax._last_reported_norm) ≤
        1 / ((if C2ax.cfg.max_raw = 0 then 1 else C2ax.cfg.max_raw : ℕ) : ℝ)) ∧
        ((get_normalized (some C2ax) < C2ax.cfg.sticky_zone_norm ∨
            get_normalized (some C2ax) > 1 - C2ax.cfg.sticky_zone_norm) ∨
          abs_f (get_normalized (some C2ax) - C2ax._last_reported_norm) >
            get_dynamic_thresh C2ax) := by
      constructor
      · rw [hcur]
        simp only [C2ax, cfgA, abs_f]
        norm_num
      · left
        left
        rw [hcur]
        simp only [C2ax, cfgA]
        norm_num
    rw [has_new_value_spec C2ax rfl, if_pos hfire]
  · simp only [C2ax, cfgA]
    norm_num
  · rw [hcur, hdyn]
    simp only [C2ax, cfgA, abs_f]
    norm_num

/-- C2 witness: the characterization applied to the concrete mid-scale axis
`C2wx`, whose pending movement 0.5 exceeds both the quantization step and
the dynamic threshold, so the call reports a change. -/
theorem C2_witness_reports_movement :
    (smooth_axis_has_new_value (some C2wx)).1 = true := by
  have hcur : get_normalized (some C2wx) = 0.5 := by
    simp only [get_normalized, C2wx, cfgA, apply_sticky_margins, clamp_f_0_1,
      clamp_f, map_f]
    norm_num
  have hdyn : get_dynamic_thresh C2wx = 0.0035 := by
    simp only [get_dynamic_thresh, C2wx, cfgA, K, clamp_f]
    norm_num
  apply ((C2_has_new_value_characterization C2wx rfl).2.1 ?_).1.mpr
  · right
    rw [hcur, hdyn]
    simp only [C2wx, cfgA, abs_f]
    norm_num
  · rw [hcur]
    simp only [C2wx, cfgA, abs_f]
    norm_num

/-- C4: after the first sample, the noise estimate is updated from the
pre-update residual `diff = norm − smoothed_norm` — the same `diff` the
smoothing step uses: on a sign flip (including two consecutive zero
residuals) the estimate becomes `(1−β)·old + β·|diff|` with `β = 0.005`,
otherwise `(1−β)·old`; the result is clamped to `[0,1]` and the stored last
residual becomes `diff`. -/
theorem C4_noise_estimator (axis : smooth_axis) (raw_value : ℕ) (alpha : ℝ)
    (h : axis._has_first_sample = true) :
    let diff := input_norm axis raw_value - axis._smoothed_norm
    ((update_core axis raw_value alpha)._dev_norm =
      clamp_f_0_1
        (if sign_of diff ≠ sign_of axis._last_residual ∨
            (sign_of diff = 0 ∧ sign_of axis._last_residual = 0)
         then (1 - 0.005) * axis._dev_norm + 0.005 * abs_f diff
         else (1 - 0.005) * axis._dev_norm)) ∧
    (update_core axis raw_value alpha)._last_residual = diff ∧
    (update_core axis raw_value alpha)._smoothed_norm =
      axis._smoothed_norm + alpha * diff := by
  intro diff
  simp only [update_core, register_first_sample, h, Bool.true_eq_false,
    if_false, update_deviation, sign_has_flipped, ema, BETA]
  refine ⟨?_, trivial, trivial⟩
  split_ifs with hf
  · rfl
  · congr 1
    ring

/-- C4 witness: the noise-estimator relation evaluated on the concrete axis
`C4ax` at raw sample 512 with coefficient one half. -/
theorem C4_witness_last_residual :
    (update_core C4ax 512 (1 / 2))._last_residual =
      input_norm C4ax 512 - C4ax._smoothed_norm :=
  (C4_noise_estimator C4ax 512 (1 / 2) rfl).2.1

theorem update_core_inv (axis : smooth_axis) (raw_value : ℕ) (alpha : ℝ)
    (hI : StateInv axis) (h0 : 0 ≤ alpha) (h1 : alpha ≤ 1) :
    StateInv (update_core axis raw_value alpha) := by
  obtain ⟨hs0, hs1, hd0, hd1, hr0, hr1, ha0, ha1⟩ := hI
  have hn := input_norm_mem axis raw_value
  simp only [update_core, register_first_sample, update_deviation]
  split_ifs with hf
  · exact ⟨hn.1, hn.2, hd0, hd1, hr0, hr1, ha0, ha1⟩
  · refine ⟨?_, ?_, (clamp_f_0_1_mem _).1, (clamp_f_0_1_mem _).2, hr0, hr1, ha0, ha1⟩
    · exact (unit_lerp_mem _ _ _ hs0 hs1 hn.1 hn.2 h0 h1).1
    · exact (unit_lerp_mem _ _ _ hs0 hs1 hn.1 hn.2 h0 h1).2

theorem warmup_inv (axis : smooth_axis) (now_ms_value : ℕ)
    (hI : StateInv axis) :
    StateInv (auto_run_warmup_cycle_if_needed axis now_ms_value) := by
  obtain ⟨hs0, hs1, hd0, hd1, hr0, hr1, ha0, ha1⟩ := hI
  simp only [auto_run_warmup_cycle_if_needed]
  split_ifs with h1 h2 h3 h4
  · exact ⟨hs0, hs1, hd0, hd1, hr0, hr1, ha0, ha1⟩
  · exact ⟨hs0, hs1, hd0, hd1, hr0, hr1, ha0, ha1⟩
  · exact ⟨hs0, hs1, hd0, hd1, hr0, hr1, ha0, ha1⟩
  · exact ⟨hs0, hs1, hd0, hd1, hr0, hr1,
      (ema_alpha_from_dt_mem _ _).1, (ema_alpha_from_dt_mem _ _).2⟩
  · exact ⟨hs0, hs1, hd0, hd1, hr0, hr1, ha0, ha1⟩

/-- C9: every axis state reachable through `smooth_axis_init` followed by any
sequence of update and query calls keeps `_smoothed_norm`, the noise
estimate `_dev_norm`, and `_last_reported_norm` inside `[0,1]`. -/
theorem C9_state_invariant (s : smooth_axis) (h : Reaches s) :
    (0 ≤ s._smoothed_norm ∧ s._smoothed_norm ≤ 1) ∧
    (0 ≤ s._dev_norm ∧ s._dev_norm ≤ 1) ∧
    (0 ≤ s._last_reported_norm ∧ s._last_reported_norm ≤ 1) := by
  have key : StateInv s := by
    induction h with
    | init cfg =>
      refine ⟨le_refl 0, zero_le_one, by norm_num [smooth_axis_init],
        by norm_num [smooth_axis_init], le_refl 0, zero_le_one, ?_, ?_⟩
      · exact (ema_alpha_from_dt_mem _ _).1
      · exact (ema_alpha_from_dt_mem _ _).2
    | update_auto s raw_value now_ms_value hr ih =>
      simp only [smooth_axis_update_auto]
      split_ifs with hm
      · exact ih
      · have hw := warmup_inv s now_ms_value ih
        exact update_core_inv _ _ _ hw hw.2.2.2.2.2.2.1 hw.2.2.2.2.2.2.2
    | update_live s raw_value dt_sec hr ih =>
      simp only [smooth_axis_update_live_deltatime]
      split_ifs with hm
      · exact ih
      · exact update_core_inv _ _ _ ih (ema_alpha_from_dt_mem _ _).1
          (ema_alpha_from_dt_mem _ _).2
    | query s s' hr heq ih =>
      rcases has_new_value_outcome s with ho | ho
      · rw [ho] at heq
        obtain rfl : s = s' := Option.some.inj heq
        exact ih
      · rw [ho] at heq
        obtain rfl : ({ s with _last_reported_norm := get_normalized (some s) } :
            smooth_axis) = s' := Option.some.inj heq
        obtain ⟨hs0, hs1, hd0, hd1, hr0, hr1, ha0, ha1⟩ := ih
        exact ⟨hs0, hs1, hd0, hd1, (get_normalized_mem s).1,
          (get_normalized_mem s).2, ha0, ha1⟩
  exact ⟨⟨key.1, key.2.1⟩, ⟨key.2.2.1, key.2.2.2.1⟩,
    ⟨key.2.2.2.2.1, key.2.2.2.2.2.1⟩⟩

/-- C9 witness: the invariant evaluated at a freshly initialized axis. -/
theorem C9_witness_init_state :
    (0 ≤ (smooth_axis_init cfg0)._smoothed_norm ∧
      (smooth_axis_init cfg0)._smoothed_norm ≤ 1) ∧
    (0 ≤ (smooth_axis_init cfg0)._dev_norm ∧
      (smooth_axis_init cfg0)._dev_norm ≤ 1) ∧
    (0 ≤ (smooth_axis_init cfg0)._last_reported_norm ∧
      (smooth_axis_init cfg0)._last_reported_norm ≤ 1) :=
  C9_state_invariant (smooth_axis_init cfg0) (Reaches.init cfg0)

/-- C8 (spec-modelled): `smooth_axis_reset` reseeds the smoothing,
noise-estimate and last-reported state from the given raw value while the
warm-up calibration bookkeeping — the frozen alpha, accumulated time,
completed cycle count and last clock reading — and the configuration are
left unchanged. -/
theorem C8_reset_preserves_calibration (axis : smooth_axis) (raw_value : ℕ) :
    (smooth_axis_reset axis raw_value)._smoothed_norm = input_norm axis raw_value ∧
    (smooth_axis_reset axis raw_value)._last_reported_norm = input_norm axis raw_value ∧
    (smooth_axis_reset axis raw_value)._dev_norm = 0.01 ∧
    (smooth_axis_reset axis raw_value)._last_residual = 0 ∧
    (smooth_axis_reset axis raw_value)._auto_alpha = axis._auto_alpha ∧
    (smooth_axis_reset axis raw_value)._warmup_cycles_done = axis._warmup_cycles_done ∧
    (smooth_axis_reset axis raw_value)._dt_accum_sec = axis._dt_accum_sec ∧
    (smooth_axis_reset axis raw_value)._last_time_ms = axis._last_time_ms ∧
    (smooth_axis_reset axis raw_value).cfg = axis.cfg := by
  unfold smooth_axis_reset
  exact ⟨rfl, rfl, rfl, rfl, rfl, rfl, rfl, rfl, rfl⟩

end
